import Mathlib

/-!
Shallow embedding of `src/modules/geo-coding.ts`: the Nominatim lookup
client `geocodeUKCity`, the rate-limiting wrapper `NominatimGeocoder`,
and the batch orchestrator `batchGeocodeUKCities`, together with proofs
of the specified properties.

Modelling conventions:
- JavaScript values that may be `undefined` are `Option`s.
- A thrown JavaScript value is `Except.error (e : Exn)` where
  `Exn := Option String`; `some msg` models an `Error` instance whose
  `message` is `msg`, `none` models a thrown non-`Error` value.
- JavaScript numbers are `Option ℚ`, with `none` standing for `NaN`
  (the only number the embedded code ever distinguishes).
- The network is abstracted as the outcome of the single `fetch` call;
  the JavaScript builtin `parseFloat` is abstracted as a parameter
  `pf : String → Option ℚ` (with `none` for `NaN`).
- Clock readings (`Date.now()`) are integer epoch milliseconds, and the
  timer is idealized: `await setTimeout(resolve, w)` resumes exactly `w`
  milliseconds later (the stubbed-clock semantics of spec section 8).
-/

set_option autoImplicit false

namespace GeoCoding

/-- A thrown JavaScript value: `some msg` models an `Error` instance with
message `msg`; `none` models a thrown value that is not an `Error`. -/
abbrev Exn := Option String

/-- Geographic coordinates (interface `Coordinates`). A coordinate is
`Option ℚ`; `none` stands for `NaN`. -/
structure Coordinates where
  latitude : Option ℚ
  longitude : Option ℚ
  deriving DecidableEq

/-- One normalized geocoding candidate (interface `GeocodeResult`).
`displayName` is an `Option` because at runtime the upstream field may be
absent (`undefined`) and line 70 copies it through unchecked. -/
structure GeocodeResult where
  name : String
  coordinates : Coordinates
  displayName : Option String
  country : String
  county : Option String
  state : Option String
  deriving DecidableEq

/-- The error shape (interface `GeocodeError`). -/
structure GeocodeError where
  error : String
  details : Option String
  deriving DecidableEq

/-- `type GeocodeResponse = GeocodeResult[] | GeocodeError` as a tagged
union: the code distinguishes the two shapes by an `in`-check on `error`. -/
inductive GeocodeResponse where
  | ok (results : List GeocodeResult)
  | err (e : GeocodeError)
  deriving DecidableEq

/-- The `address` sub-object of one upstream Nominatim candidate; every
field is optional. -/
structure NominatimAddress where
  country : Option String
  county : Option String
  state : Option String
  deriving DecidableEq

/-- One raw upstream Nominatim candidate, typed `any` in the source; every
field the code reads may be absent at runtime. -/
structure NominatimItem where
  name : Option String
  display_name : Option String
  lat : Option String
  lon : Option String
  address : Option NominatimAddress
  deriving DecidableEq

/-- JavaScript truthiness of a possibly-absent string, as used by the
`||` and `?.` operators: `undefined` and the empty string are falsy.
`jsTruthy o = some s` exactly when `o` holds a truthy string `s`. -/
def jsTruthy : Option String → Option String
  | none => none
  | some s => if s = "" then none else some s

/-- `s.split(",")[0]` in JavaScript: the first comma-delimited segment,
that is, the prefix of `s` up to (excluding) its first comma. It is
always defined, because `split` returns at least one segment. -/
def jsFirstSegment (s : String) : String :=
  String.mk (s.data.takeWhile (fun c => c ≠ ','))

/-- The message of the `TypeError` thrown at line 65 by
`item.display_name.split(...)` when `display_name` is `undefined`. The
wording is engine-dependent; only its existence matters to the proofs,
so we fix one representative string. -/
def splitTypeErrorMessage : String :=
  "TypeError: undefined has no method split"

/-- `error instanceof Error ? error.message : "Unknown error occurred"`,
the detail computed by the catch block of `geocodeUKCity` (line 81). -/
def lookupExnMessage : Exn → String
  | some msg => msg
  | none => "Unknown error occurred"

/-- `error instanceof Error ? error.message : "Unknown error"`, the detail
computed by the catch block of `batchGeocodeUKCities` (line 131). -/
def batchExnMessage : Exn → String
  | some msg => msg
  | none => "Unknown error"

/-- The fields of the `GeocodeResult` built for one upstream item by the
arrow function at lines 64 to 74, given the already-computed `name` value
`nm`. `parseFloat` applied to an absent field yields `NaN` (`none`);
`item.address?.country || "United Kingdom"` falls back when the address
object or its `country` is absent or empty; `county` and `state` pass
through `?.` unfiltered. -/
def mapItemFields (pf : String → Option ℚ) (item : NominatimItem) (nm : String) : GeocodeResult :=
  { name := nm
    coordinates := { latitude := item.lat.bind pf, longitude := item.lon.bind pf }
    displayName := item.display_name
    country := (jsTruthy (item.address.bind NominatimAddress.country)).getD "United Kingdom"
    county := item.address.bind NominatimAddress.county
    state := item.address.bind NominatimAddress.state }

/-- The per-item transform inside `data.map` (lines 64 to 74).
`item.name || item.display_name.split(",")[0]` short-circuits on a truthy
`name`; otherwise, if `display_name` is absent, the method access at line
65 throws a `TypeError`, modelled as `Except.error`. -/
def mapItem (pf : String → Option ℚ) (item : NominatimItem) : Except Exn GeocodeResult :=
  match jsTruthy item.name, item.display_name with
  | some n, _ => .ok (mapItemFields pf item n)
  | none, some d => .ok (mapItemFields pf item (jsFirstSegment d))
  | none, none => .error (some splitTypeErrorMessage)

/-- An upstream item on which the name computation of line 65 cannot
throw: it has a truthy short `name` or a present `display_name`. -/
def wellFormedItem (item : NominatimItem) : Bool :=
  (jsTruthy item.name).isSome || item.display_name.isSome

/-- The `GeocodeResult` produced for a well-formed upstream item: the
truthy short name if present, else the first comma-delimited segment of
the display name. -/
def mapItemOk (pf : String → Option ℚ) (item : NominatimItem) : GeocodeResult :=
  mapItemFields pf item
    ((jsTruthy item.name).getD (jsFirstSegment (item.display_name.getD "")))

/-- The parts of the `fetch` `Response` that `geocodeUKCity` consumes.
`json` is the outcome of `response.json()`: it may throw while parsing
(`Except.error`), and a successful parse yields either a falsy value such
as `null` (`none`) or an array of candidate items (`some items`). -/
structure FetchResult where
  status : Nat
  statusText : String
  json : Except Exn (Option (List NominatimItem))

/-- `response.ok` per the Fetch standard: status in the range 200 to 299. -/
def FetchResult.ok (r : FetchResult) : Bool :=
  decide (200 ≤ r.status) && decide (r.status < 300)

/-- Shallow embedding of `geocodeUKCity` (lines 28 to 84). `fetched` is
the outcome of the `fetch` call for this request (`Except.error` models
the transport throwing); `pf` abstracts `parseFloat`. The URL and header
construction of lines 33 to 45 has no observable effect on the returned
value and is omitted; note that line 58 interpolates the untrimmed
`cityName`, not the trimmed, escaped query. -/
def geocodeUKCity (pf : String → Option ℚ) (fetched : Except Exn FetchResult)
    (cityName : String) : GeocodeResponse :=
  match fetched with
  | .error e =>
      .err { error := "Failed to geocode location", details := some (lookupExnMessage e) }
  | .ok response =>
      if !response.ok then
        .err { error := "Geocoding service unavailable"
               details := some ("HTTP " ++ toString response.status ++ ": " ++ response.statusText) }
      else
        match response.json with
        | .error e =>
            .err { error := "Failed to geocode location", details := some (lookupExnMessage e) }
        | .ok none =>
            .err { error := "No results found for \"" ++ cityName ++ "\" in the UK"
                   details := some "Try checking the spelling or using a more specific location name" }
        | .ok (some data) =>
            if data.length = 0 then
              .err { error := "No results found for \"" ++ cityName ++ "\" in the UK"
                     details := some "Try checking the spelling or using a more specific location name" }
            else
              match data.mapM (mapItem pf) with
              | .error e =>
                  .err { error := "Failed to geocode location", details := some (lookupExnMessage e) }
              | .ok results => .ok results

/-- The rate limiter (`class NominatimGeocoder`): its state is the single
mutable field `lastRequestTime`, in integer epoch milliseconds. -/
structure NominatimGeocoder where
  lastRequestTime : Int
  deriving DecidableEq

/-- `private readonly minInterval = 1000`: one second between requests. -/
def minInterval : Int := 1000

/-- The field initializer `lastRequestTime = 0` (line 91): the state of a
freshly constructed `NominatimGeocoder`. -/
def NominatimGeocoder.init : NominatimGeocoder := { lastRequestTime := 0 }

/-- The wait inserted by `geocode` before dispatching, as a function of
the state and of `now = Date.now()` at entry (lines 96 to 102):
`minInterval - timeSinceLastRequest` when
`timeSinceLastRequest < minInterval`, else zero. -/
def NominatimGeocoder.waitTime (g : NominatimGeocoder) (now : Int) : Int :=
  if now - g.lastRequestTime < minInterval then minInterval - (now - g.lastRequestTime) else 0

/-- The dispatch time of a call entered at `now`: the value `Date.now()`
reads at line 104, under the idealized timer in which the awaited
`setTimeout` resumes exactly `waitTime` milliseconds later. -/
def NominatimGeocoder.dispatchTime (g : NominatimGeocoder) (now : Int) : Int :=
  now + g.waitTime now

/-- Shallow embedding of `NominatimGeocoder.geocode` (lines 94 to 106):
wait out the remainder of the minimum interval, record `Date.now()` into
`lastRequestTime` (line 104, before the delegation at line 105), then
delegate unconditionally to the lookup client. `lookup` abstracts
`geocodeUKCity` applied to the ambient network; `cityName` and
`countryCode` are passed through unchanged. Returns the delegated
response and the updated limiter state. -/
def NominatimGeocoder.geocode (g : NominatimGeocoder)
    (lookup : String → String → GeocodeResponse) (now : Int)
    (cityName countryCode : String) : GeocodeResponse × NominatimGeocoder :=
  (lookup cityName countryCode, { lastRequestTime := g.dispatchTime now })

/-- `Record<string, α>` as an insertion-ordered association list. Keys of
a JavaScript object are unique, so `results[k] = v` overwrites the value
at the existing position of `k`, or appends a new property. -/
def recordSet {α : Type} : List (String × α) → String → α → List (String × α)
  | [], k, v => [(k, v)]
  | (k2, v2) :: r, k, v => if k2 = k then (k, v) :: r else (k2, v2) :: recordSet r k v

/-- Reading `r[k]` from the modelled record. -/
def recordGet {α : Type} : List (String × α) → String → Option α
  | [], _ => none
  | (k2, v2) :: r, k => if k2 = k then some v2 else recordGet r k

/-- The `GeocodeResponse` that one iteration of `batchGeocodeUKCities`
stores for `cityName` when the chosen lookup is run in state `s`: the
normally returned response, or, when the lookup throws, the catch-block
entry of lines 129 to 132. The lookup is stateful; the state type `σ`
abstracts the rate limiter, clock and network. -/
def batchEntry {σ : Type} (lookup : σ → String → Except Exn GeocodeResponse × σ)
    (s : σ) (cityName : String) : GeocodeResponse :=
  match (lookup s cityName).1 with
  | .ok resp => resp
  | .error e =>
      .err { error := "Failed to geocode " ++ cityName, details := some (batchExnMessage e) }

/-- One iteration of the `for` loop (lines 121 to 134): store the entry
for `cityName` and advance the lookup state. -/
def batchStep {σ : Type} (lookup : σ → String → Except Exn GeocodeResponse × σ)
    (acc : List (String × GeocodeResponse) × σ) (cityName : String) :
    List (String × GeocodeResponse) × σ :=
  (recordSet acc.1 cityName (batchEntry lookup acc.2 cityName), (lookup acc.2 cityName).2)

/-- The `for` loop of `batchGeocodeUKCities`: fold `batchStep` over the
input names strictly in order. -/
def batchAux {σ : Type} (lookup : σ → String → Except Exn GeocodeResponse × σ) :
    List String → List (String × GeocodeResponse) × σ →
    List (String × GeocodeResponse) × σ
  | [], acc => acc
  | cityName :: rest, acc => batchAux lookup rest (batchStep lookup acc cityName)

/-- Shallow embedding of `batchGeocodeUKCities` (lines 115 to 137):
iterate the input names in order, routing each through the rate-limited
singleton when `useRateLimiting` is true and through the direct client
otherwise, accumulating a `Record` keyed by input name. The function is
total: every failure mode is stored as data, never thrown. -/
def batchGeocodeUKCities {σ : Type}
    (rateLimited direct : σ → String → Except Exn GeocodeResponse × σ)
    (useRateLimiting : Bool) (cityNames : List String) (s0 : σ) :
    List (String × GeocodeResponse) × σ :=
  batchAux (if useRateLimiting then rateLimited else direct) cityNames ([], s0)

/-! ## Rate limiter claims -/

/-- On any call, the dispatch time is at least `minInterval` after the
previously recorded dispatch timestamp. -/
theorem NominatimGeocoder.lastRequestTime_add_minInterval_le_dispatchTime
    (g : NominatimGeocoder) (now : Int) :
    g.lastRequestTime + minInterval ≤ g.dispatchTime now := by
  unfold NominatimGeocoder.dispatchTime NominatimGeocoder.waitTime minInterval
  split <;> omega

/-- C1: Through one `NominatimGeocoder` instance, for two successive calls
the second dispatch (the timestamp recorded at line 104, under the
idealized timer) is no less than `minInterval` = 1000 ms after the first
recorded dispatch, whatever the clock reading `now2` of the second call;
and every call is delegated to the wrapped lookup client exactly once —
each call returns precisely that one delegated response, so the limiter
never drops or coalesces a request, it only delays it. -/
theorem rateLimiter_spacing_and_unconditional_delegation
    (g : NominatimGeocoder) (lookup1 lookup2 : String → String → GeocodeResponse)
    (now1 now2 : Int) (city1 cc1 city2 cc2 : String) :
    minInterval ≤
        (((g.geocode lookup1 now1 city1 cc1).2.geocode lookup2 now2 city2 cc2).2.lastRequestTime
          - (g.geocode lookup1 now1 city1 cc1).2.lastRequestTime)
      ∧ (g.geocode lookup1 now1 city1 cc1).1 = lookup1 city1 cc1
      ∧ ((g.geocode lookup1 now1 city1 cc1).2.geocode lookup2 now2 city2 cc2).1
          = lookup2 city2 cc2 := by
  refine ⟨?_, rfl, rfl⟩
  have h := NominatimGeocoder.lastRequestTime_add_minInterval_le_dispatchTime
    (g.geocode lookup1 now1 city1 cc1).2 now2
  simp only [NominatimGeocoder.geocode] at h ⊢
  omega

/-- C2: On each call with clock reading `now`, letting `elapsed` be
`now - lastRequestTime`: if `elapsed < minInterval` the caller waits
exactly `minInterval - elapsed` milliseconds, otherwise no delay is
added; and the new dispatch timestamp recorded into the state is
`now + waitTime` (the clock reading taken at line 104, before the
delegation at line 105) — it does not depend on the wrapped lookup
client or on anything it later returns. -/
theorem rateLimiter_wait_formula_and_timestamp_before_delegation
    (g : NominatimGeocoder) (lookup lookup2 : String → String → GeocodeResponse)
    (now : Int) (city cc : String) :
    (now - g.lastRequestTime < minInterval →
        g.waitTime now = minInterval - (now - g.lastRequestTime))
      ∧ (minInterval ≤ now - g.lastRequestTime → g.waitTime now = 0)
      ∧ (g.geocode lookup now city cc).2.lastRequestTime = now + g.waitTime now
      ∧ (g.geocode lookup now city cc).2 = (g.geocode lookup2 now city cc).2 := by
  refine ⟨?_, ?_, rfl, rfl⟩ <;> intro h <;>
    simp only [NominatimGeocoder.waitTime, minInterval] at * <;> split <;> omega

/-- Witness for C2 at concrete inputs: from state `lastRequestTime = 0`,
a call at `now = 200` waits exactly 800 ms, a call at `now = 1500` waits
nothing, and the recorded timestamp of the first is `200 + 800`. -/
theorem rateLimiter_wait_formula_witness :
    NominatimGeocoder.waitTime ⟨0⟩ 200 = minInterval - (200 - 0)
      ∧ NominatimGeocoder.waitTime ⟨0⟩ 1500 = 0
      ∧ (NominatimGeocoder.geocode ⟨0⟩ (fun _ _ => .ok []) 200 "London" "gb").2.lastRequestTime
          = 200 + NominatimGeocoder.waitTime ⟨0⟩ 200 :=
  ⟨(rateLimiter_wait_formula_and_timestamp_before_delegation
      ⟨0⟩ (fun _ _ => .ok []) (fun _ _ => .ok []) 200 "London" "gb").1 (by decide),
   ((rateLimiter_wait_formula_and_timestamp_before_delegation
      ⟨0⟩ (fun _ _ => .ok []) (fun _ _ => .ok []) 1500 "London" "gb").2).1 (by decide),
   ((rateLimiter_wait_formula_and_timestamp_before_delegation
      ⟨0⟩ (fun _ _ => .ok []) (fun _ _ => .ok []) 200 "London" "gb").2).2.1⟩

/-- C9: A freshly constructed `NominatimGeocoder` has `lastRequestTime`
initialized to 0, so the first call through it waits if and only if the
clock reads below `minInterval`; in particular, whenever the clock (epoch
milliseconds) reads at least 1000, the first call is dispatched at `now`
with no added delay. -/
theorem rateLimiter_init_first_call_no_delay (now : Int) :
    NominatimGeocoder.init.lastRequestTime = 0
      ∧ (NominatimGeocoder.init.waitTime now = 0 ↔ minInterval ≤ now)
      ∧ (minInterval ≤ now → NominatimGeocoder.init.dispatchTime now = now) := by
  refine ⟨rfl, ?_, ?_⟩ <;>
    simp only [NominatimGeocoder.init, NominatimGeocoder.dispatchTime,
      NominatimGeocoder.waitTime, minInterval]
  · constructor <;> intro h
    · split at h <;> omega
    · split <;> omega
  · intro h
    split <;> omega

/-- Witness for C9 at a realistic concrete clock reading. -/
theorem rateLimiter_init_first_call_no_delay_witness :
    NominatimGeocoder.init.lastRequestTime = 0
      ∧ NominatimGeocoder.init.waitTime 1700000000000 = 0
      ∧ NominatimGeocoder.init.dispatchTime 1700000000000 = 1700000000000 :=
  ⟨(rateLimiter_init_first_call_no_delay 1700000000000).1,
   (rateLimiter_init_first_call_no_delay 1700000000000).2.1.mpr (by decide),
   (rateLimiter_init_first_call_no_delay 1700000000000).2.2 (by decide)⟩

/-! ## Lookup client claims -/

/-- C4 counterexample: for a response with HTTP status 503 and status text
"Service Unavailable", the detail string is "HTTP 503: Service
Unavailable" — it carries the literal prefix "HTTP ", so it is not the
claimed form "<status code>: <status text>", which for this input would
read "503: Service Unavailable". -/
theorem serviceUnavailable_detail_has_HTTP_prefix :
    geocodeUKCity (fun _ => none)
        (.ok { status := 503, statusText := "Service Unavailable", json := .ok (some []) })
        "London"
      = .err { error := "Geocoding service unavailable"
               details := some "HTTP 503: Service Unavailable" }
      ∧ "HTTP 503: Service Unavailable" ≠ "503" ++ ": " ++ "Service Unavailable" := by
  exact ⟨rfl, by decide⟩

/-- C4 amended: for every response with a non-success HTTP status (outside
200 to 299), `geocodeUKCity` returns — never throws — a `Failed` outcome
classifying the error as service unavailable, whose detail is
"HTTP <status code>: <status text>". -/
theorem serviceUnavailable_on_non_success_status
    (pf : String → Option ℚ) (r : FetchResult) (cityName : String)
    (h : r.ok = false) :
    geocodeUKCity pf (.ok r) cityName
      = .err { error := "Geocoding service unavailable"
               details := some ("HTTP " ++ toString r.status ++ ": " ++ r.statusText) } := by
  simp [geocodeUKCity, h]

/-- Witness for the amended C4 at HTTP 503. -/
theorem serviceUnavailable_on_non_success_status_witness :
    FetchResult.ok { status := 503, statusText := "x", json := .ok (some []) } = false
      ∧ geocodeUKCity (fun _ => none)
          (.ok { status := 503, statusText := "x", json := .ok (some []) }) "London"
        = .err { error := "Geocoding service unavailable"
                 details := some ("HTTP " ++ toString (503 : Nat) ++ ": " ++ "x") } :=
  ⟨rfl, serviceUnavailable_on_non_success_status (fun _ => none)
    { status := 503, statusText := "x", json := .ok (some []) } "London" rfl⟩

/-- C5: for every place name, when the upstream responds successfully
(status 200 to 299) and the parsed body is an empty result list,
`geocodeUKCity` returns — never throws — a `Failed` outcome whose error
message interpolates the exact (untrimmed) input name and whose detail
suggests a spelling or specificity check; in particular it is not an `Ok`
with an empty list. -/
theorem noResults_interpolates_exact_name
    (pf : String → Option ℚ) (r : FetchResult) (cityName : String)
    (hok : r.ok = true) (hjson : r.json = .ok (some [])) :
    geocodeUKCity pf (.ok r) cityName
      = .err { error := "No results found for \"" ++ cityName ++ "\" in the UK"
               details := some "Try checking the spelling or using a more specific location name" }
      ∧ ∀ results, geocodeUKCity pf (.ok r) cityName ≠ .ok results := by
  have h : geocodeUKCity pf (.ok r) cityName
      = .err { error := "No results found for \"" ++ cityName ++ "\" in the UK"
               details := some "Try checking the spelling or using a more specific location name" } := by
    simp [geocodeUKCity, hok, hjson]
  exact ⟨h, fun results hc => by rw [h] at hc; exact GeocodeResponse.noConfusion hc⟩

/-- Witness for C5 at a concrete empty upstream response. -/
theorem noResults_interpolates_exact_name_witness :
    geocodeUKCity (fun _ => none)
        (.ok { status := 200, statusText := "OK", json := .ok (some []) }) "Fooville"
      = .err { error := "No results found for \"" ++ "Fooville" ++ "\" in the UK"
               details := some "Try checking the spelling or using a more specific location name" } :=
  (noResults_interpolates_exact_name (fun _ => none)
    { status := 200, statusText := "OK", json := .ok (some []) } "Fooville" rfl rfl).1

/-- On a well-formed item the per-item transform cannot throw: it returns
exactly the well-formed mapping. -/
theorem mapItem_eq_ok_of_wellFormed (pf : String → Option ℚ) (item : NominatimItem)
    (h : wellFormedItem item = true) :
    mapItem pf item = .ok (mapItemOk pf item) := by
  unfold wellFormedItem at h
  unfold mapItem mapItemOk
  cases hn : jsTruthy item.name with
  | some n => simp
  | none =>
    cases hd : item.display_name with
    | some d => simp
    | none => rw [hn, hd] at h; simp [Option.isSome] at h

/-- `data.map` over a list of well-formed items throws nothing and returns
the pointwise well-formed mapping. -/
theorem mapM_mapItem_of_wellFormed (pf : String → Option ℚ) (items : List NominatimItem)
    (h : ∀ item ∈ items, wellFormedItem item = true) :
    items.mapM (mapItem pf) = .ok (items.map (mapItemOk pf)) := by
  induction items with
  | nil => rfl
  | cons x xs ih =>
    simp only [List.mapM_cons, List.map_cons]
    rw [mapItem_eq_ok_of_wellFormed pf x (h x (List.mem_cons_self x xs)),
      ih (fun i hi => h i (List.mem_cons_of_mem x hi))]
    rfl

/-- The only value the per-item transform can throw is the `TypeError`
from the `split` access. -/
theorem mapItem_error_eq (pf : String → Option ℚ) (item : NominatimItem) (e : Exn)
    (h : mapItem pf item = .error e) :
    e = some splitTypeErrorMessage := by
  unfold mapItem at h
  cases hn : jsTruthy item.name with
  | some n => rw [hn] at h; exact absurd h (by simp)
  | none =>
    cases hd : item.display_name with
    | some d => rw [hn, hd] at h; exact absurd h (by simp)
    | none => rw [hn, hd] at h; exact (Except.error.inj h).symm

/-- If any item of the list lacks both a truthy short name and a display
name, `data.map` throws the `TypeError` (whichever such item comes
first, the thrown value is the same). -/
theorem mapM_mapItem_error_of_bad (pf : String → Option ℚ)
    (items : List NominatimItem) (item : NominatimItem) (hmem : item ∈ items)
    (hname : jsTruthy item.name = none) (hdisp : item.display_name = none) :
    items.mapM (mapItem pf) = .error (some splitTypeErrorMessage) := by
  induction items with
  | nil => cases hmem
  | cons x xs ih =>
    simp only [List.mapM_cons]
    rcases List.mem_cons.mp hmem with rfl | hmem2
    · have hx : mapItem pf item = .error (some splitTypeErrorMessage) := by
        unfold mapItem; rw [hname, hdisp]
      rw [hx]; rfl
    · cases hx : mapItem pf x with
      | error e =>
        have he := mapItem_error_eq pf x e hx
        subst he
        rfl
      | ok y => simp only [ih hmem2]; rfl

/-- C6: for every successful upstream response carrying at least one
candidate, all of them well formed, `geocodeUKCity` returns an `Ok` list
of the same length, where each candidate maps to a result whose `name` is
the truthy upstream short name, else the first comma-delimited segment of
the display name; whose `displayName` is the upstream display string
unchanged; whose `country` is the upstream address country when truthy,
else the fixed fallback "United Kingdom"; and whose `county` and `state`
are the optional upstream address sub-fields, absent when omitted. -/
theorem okList_length_and_field_mapping
    (pf : String → Option ℚ) (r : FetchResult) (cityName : String)
    (items : List NominatimItem)
    (hok : r.ok = true) (hjson : r.json = .ok (some items)) (hne : items ≠ [])
    (hwf : ∀ item ∈ items, wellFormedItem item = true) :
    geocodeUKCity pf (.ok r) cityName = .ok (items.map (mapItemOk pf))
      ∧ (items.map (mapItemOk pf)).length = items.length
      ∧ ∀ item ∈ items,
          (∀ n, jsTruthy item.name = some n → (mapItemOk pf item).name = n)
          ∧ (∀ d, jsTruthy item.name = none → item.display_name = some d →
              (mapItemOk pf item).name = jsFirstSegment d)
          ∧ (mapItemOk pf item).displayName = item.display_name
          ∧ (∀ c, jsTruthy (item.address.bind NominatimAddress.country) = some c →
              (mapItemOk pf item).country = c)
          ∧ (jsTruthy (item.address.bind NominatimAddress.country) = none →
              (mapItemOk pf item).country = "United Kingdom")
          ∧ (mapItemOk pf item).county = item.address.bind NominatimAddress.county
          ∧ (mapItemOk pf item).state = item.address.bind NominatimAddress.state := by
  have hmap : List.mapM.loop (mapItem pf) items [] = .ok (items.map (mapItemOk pf)) :=
    mapM_mapItem_of_wellFormed pf items hwf
  refine ⟨?_, by simp, ?_⟩
  · simp [geocodeUKCity, hok, hjson, hmap, hne]
  · intro item hmem
    refine ⟨?_, ?_, rfl, ?_, ?_, rfl, rfl⟩
    · intro n hn; simp [mapItemOk, mapItemFields, hn]
    · intro d hn hd; simp [mapItemOk, mapItemFields, hn, hd]
    · intro c hc; simp [mapItemOk, mapItemFields, hc]
    · intro hc; simp [mapItemOk, mapItemFields, hc]

/-- Witness for C6 at a concrete two-candidate response: the first
candidate has a truthy short name and no address country (fallback
applies); the second falls back to the first comma segment of its
display name. -/
theorem okList_length_and_field_mapping_witness :
    geocodeUKCity (fun _ => none)
        (.ok { status := 200, statusText := "OK", json := .ok (some
          [{ name := some "Leeds", display_name := some "Leeds, West Yorkshire, England"
             lat := some "53.8", lon := some "-1.5"
             address := some { country := none, county := some "West Yorkshire"
                               state := some "England" } },
           { name := none, display_name := some "York, England"
             lat := none, lon := none, address := none }]) })
        "Leeds"
      = .ok
          [{ name := "Leeds", coordinates := { latitude := none, longitude := none }
             displayName := some "Leeds, West Yorkshire, England"
             country := "United Kingdom", county := some "West Yorkshire"
             state := some "England" },
           { name := "York", coordinates := { latitude := none, longitude := none }
             displayName := some "York, England", country := "United Kingdom"
             county := none, state := none }] := by
  have h := (okList_length_and_field_mapping (fun _ => none)
    { status := 200, statusText := "OK", json := .ok (some
      [{ name := some "Leeds", display_name := some "Leeds, West Yorkshire, England"
         lat := some "53.8", lon := some "-1.5"
         address := some { country := none, county := some "West Yorkshire"
                           state := some "England" } },
       { name := none, display_name := some "York, England"
         lat := none, lon := none, address := none }]) }
    "Leeds" _ rfl rfl (by decide) (by decide)).1
  rw [h]; rfl

/-- C7: coordinate strings are parsed candidate-by-candidate and the
parses land unchanged inside the `Ok` outcome: each returned candidate
carries `latitude = parseFloat(lat)` and `longitude = parseFloat(lon)`,
where a failed parse is `none` (`NaN`). In particular an unparseable
coordinate never produces a `Failed` outcome or an exception — the
candidate is still returned inside `Ok`, with that coordinate `NaN`. -/
theorem parse_failure_yields_nan_inside_ok
    (pf : String → Option ℚ) (r : FetchResult) (cityName : String)
    (items : List NominatimItem) (item : NominatimItem)
    (hok : r.ok = true) (hjson : r.json = .ok (some items))
    (hwf : ∀ i ∈ items, wellFormedItem i = true) (hmem : item ∈ items) :
    ∃ results, geocodeUKCity pf (.ok r) cityName = .ok results
      ∧ mapItemOk pf item ∈ results
      ∧ (mapItemOk pf item).coordinates.latitude = item.lat.bind pf
      ∧ (mapItemOk pf item).coordinates.longitude = item.lon.bind pf := by
  have hne : items ≠ [] := List.ne_nil_of_mem hmem
  have hmap : List.mapM.loop (mapItem pf) items [] = .ok (items.map (mapItemOk pf)) :=
    mapM_mapItem_of_wellFormed pf items hwf
  exact ⟨items.map (mapItemOk pf),
    by simp [geocodeUKCity, hok, hjson, hmap, hne],
    List.mem_map_of_mem (mapItemOk pf) hmem, rfl, rfl⟩

/-- Witness for C7: a candidate whose `lat` does not parse (here the
parse function rejects "abc" but accepts "-1.5") is still returned
inside `Ok`, with `latitude = none` (`NaN`) and `longitude` parsed. -/
theorem parse_failure_yields_nan_inside_ok_witness :
    ∃ results,
      geocodeUKCity (fun s => if s = "-1.5" then some (-(3 : ℚ) / 2) else none)
          (.ok { status := 200, statusText := "OK", json := .ok (some
            [{ name := some "Leeds", display_name := some "Leeds, England"
               lat := some "abc", lon := some "-1.5", address := none }]) })
          "Leeds"
        = .ok results
      ∧ mapItemOk (fun s => if s = "-1.5" then some (-(3 : ℚ) / 2) else none)
          { name := some "Leeds", display_name := some "Leeds, England"
            lat := some "abc", lon := some "-1.5", address := none } ∈ results
      ∧ (mapItemOk (fun s => if s = "-1.5" then some (-(3 : ℚ) / 2) else none)
          { name := some "Leeds", display_name := some "Leeds, England"
            lat := some "abc", lon := some "-1.5", address := none }).coordinates.latitude
          = none := by
  obtain ⟨results, h1, h2, h3, _⟩ := parse_failure_yields_nan_inside_ok
    (fun s => if s = "-1.5" then some (-(3 : ℚ) / 2) else none)
    { status := 200, statusText := "OK", json := .ok (some
      [{ name := some "Leeds", display_name := some "Leeds, England"
         lat := some "abc", lon := some "-1.5", address := none }]) }
    "Leeds" _
    { name := some "Leeds", display_name := some "Leeds, England"
      lat := some "abc", lon := some "-1.5", address := none }
    rfl rfl (by decide) (by decide)
  exact ⟨results, h1, h2, by rw [h3]; rfl⟩

/-- C10: if any candidate of a non-empty successful response lacks both a
truthy short name and a display-name string, the `split` access throws,
the catch block converts it, and `geocodeUKCity` returns the catch-all
`Failed` outcome for the whole request — no partial `Ok` list survives,
whatever the other candidates look like. -/
theorem malformed_candidate_fails_whole_request
    (pf : String → Option ℚ) (r : FetchResult) (cityName : String)
    (items : List NominatimItem) (item : NominatimItem)
    (hok : r.ok = true) (hjson : r.json = .ok (some items)) (hmem : item ∈ items)
    (hname : jsTruthy item.name = none) (hdisp : item.display_name = none) :
    geocodeUKCity pf (.ok r) cityName
      = .err { error := "Failed to geocode location"
               details := some splitTypeErrorMessage }
      ∧ ∀ results, geocodeUKCity pf (.ok r) cityName ≠ .ok results := by
  have hne : items ≠ [] := List.ne_nil_of_mem hmem
  have hmap : List.mapM.loop (mapItem pf) items [] = .error (some splitTypeErrorMessage) :=
    mapM_mapItem_error_of_bad pf items item hmem hname hdisp
  have h : geocodeUKCity pf (.ok r) cityName
      = .err { error := "Failed to geocode location"
               details := some splitTypeErrorMessage } := by
    simp [geocodeUKCity, hok, hjson, hmap, hne, lookupExnMessage]
  exact ⟨h, fun results hc => by rw [h] at hc; exact GeocodeResponse.noConfusion hc⟩

/-- Witness for C10: one well-formed candidate followed by one malformed
candidate; the whole request fails, discarding the well-formed one. -/
theorem malformed_candidate_fails_whole_request_witness :
    geocodeUKCity (fun _ => none)
        (.ok { status := 200, statusText := "OK", json := .ok (some
          [{ name := some "Leeds", display_name := some "Leeds, England"
             lat := some "53.8", lon := some "-1.5", address := none },
           { name := some "", display_name := none
             lat := some "0", lon := some "0", address := none }]) })
        "Leeds"
      = .err { error := "Failed to geocode location"
               details := some splitTypeErrorMessage } :=
  (malformed_candidate_fails_whole_request (fun _ => none)
    { status := 200, statusText := "OK", json := .ok (some
      [{ name := some "Leeds", display_name := some "Leeds, England"
         lat := some "53.8", lon := some "-1.5", address := none },
       { name := some "", display_name := none
         lat := some "0", lon := some "0", address := none }]) }
    "Leeds" _
    { name := some "", display_name := none
      lat := some "0", lon := some "0", address := none }
    rfl rfl (by decide) (by decide) (by decide)).1

/-! ## Batch orchestrator claims -/

/-- Reading a key after a record assignment: the assigned key now holds
the assigned value, every other key is untouched. -/
theorem recordGet_recordSet {α : Type} (r : List (String × α)) (k k2 : String) (v : α) :
    recordGet (recordSet r k v) k2 = if k2 = k then some v else recordGet r k2 := by
  induction r with
  | nil =>
    simp only [recordSet, recordGet]
    by_cases h : k2 = k
    · rw [if_pos h.symm, if_pos h]
    · rw [if_neg (fun hk => h hk.symm), if_neg h]
  | cons p r ih =>
    obtain ⟨pk, pv⟩ := p
    simp only [recordSet]
    by_cases hp : pk = k
    · rw [if_pos hp]
      simp only [recordGet]
      by_cases h : k2 = k
      · rw [if_pos h.symm, if_pos h]
      · rw [if_neg (fun hk => h hk.symm), if_neg h,
        if_neg (fun hpk : pk = k2 => h (hp.symm.trans hpk).symm)]
    · rw [if_neg hp]
      simp only [recordGet, ih]
      by_cases hpk : pk = k2
      · have hk : ¬k2 = k := fun he => hp (hpk.trans he)
        rw [if_pos hpk, if_neg hk, if_pos hpk]
      · rw [if_neg hpk, if_neg hpk]

/-- A key is present after the batch loop iff it was already present or
occurs among the remaining names. -/
theorem recordGet_batchAux_isSome_iff {σ : Type}
    (lookup : σ → String → Except Exn GeocodeResponse × σ)
    (names : List String) (acc : List (String × GeocodeResponse) × σ) (n : String) :
    (recordGet (batchAux lookup names acc).1 n).isSome = true
      ↔ ((recordGet acc.1 n).isSome = true ∨ n ∈ names) := by
  induction names generalizing acc with
  | nil => simp [batchAux]
  | cons m rest ih =>
    simp only [batchAux]
    rw [ih]
    rw [show (batchStep lookup acc m).1 = recordSet acc.1 m (batchEntry lookup acc.2 m) from rfl,
      recordGet_recordSet]
    by_cases h : n = m
    · subst h; simp
    · simp [h]

/-- When a name occurs last in the processed list, the entry stored for
it is the one computed at that final occurrence, acting on the lookup
state reached after all the earlier names. -/
theorem recordGet_batchAux_append_last {σ : Type}
    (lookup : σ → String → Except Exn GeocodeResponse × σ)
    (names : List String) (n : String) (acc : List (String × GeocodeResponse) × σ) :
    recordGet (batchAux lookup (names ++ [n]) acc).1 n
      = some (batchEntry lookup (batchAux lookup names acc).2 n) := by
  induction names generalizing acc with
  | nil =>
    simp only [List.nil_append, batchAux]
    rw [show (batchStep lookup acc n).1 = recordSet acc.1 n (batchEntry lookup acc.2 n) from rfl,
      recordGet_recordSet]
    simp
  | cons m rest ih =>
    simp only [List.cons_append, batchAux]
    exact ih (batchStep lookup acc m)

/-- C3: the batch orchestrator is a total function — nothing escapes it —
whose returned map contains an entry for every input name; a value thrown
while processing one name is caught and stored as that name's entry, a
`Failed` outcome whose error is "Failed to geocode <name>" and whose
detail is the exception message, or "Unknown error" for a thrown
non-`Error` value; and the loop always continues with the remaining names
after storing an entry, whatever that entry was. -/
theorem batch_catches_exceptions_and_covers_every_name {σ : Type}
    (rateLimited direct : σ → String → Except Exn GeocodeResponse × σ)
    (useRateLimiting : Bool) (cityNames : List String) (s0 : σ) :
    (∀ n ∈ cityNames,
        (recordGet
          (batchGeocodeUKCities rateLimited direct useRateLimiting cityNames s0).1 n).isSome
          = true)
      ∧ (∀ (s : σ) (n : String) (e : Exn),
          ((if useRateLimiting then rateLimited else direct) s n).1 = .error e →
          batchEntry (if useRateLimiting then rateLimited else direct) s n
            = .err { error := "Failed to geocode " ++ n
                     details := some (batchExnMessage e) })
      ∧ (∀ (acc : List (String × GeocodeResponse) × σ) (n : String) (rest : List String),
          batchAux (if useRateLimiting then rateLimited else direct) (n :: rest) acc
            = batchAux (if useRateLimiting then rateLimited else direct) rest
                (batchStep (if useRateLimiting then rateLimited else direct) acc n)) := by
  refine ⟨?_, ?_, fun acc n rest => rfl⟩
  · intro n hn
    rw [batchGeocodeUKCities, recordGet_batchAux_isSome_iff]
    exact Or.inr hn
  · intro s n e he
    simp [batchEntry, he]

/-- Witness for C3: a lookup that always throws an `Error` with message
"boom"; the single requested name gets an entry, and the caught-exception
entry has the converted shape. -/
theorem batch_catches_exceptions_witness :
    (recordGet
        (batchGeocodeUKCities
          (fun (s : Unit) (_ : String) => (Except.error (some "boom"), s))
          (fun (s : Unit) (_ : String) => (Except.error (some "boom"), s))
          true ["Badcity"] ()).1 "Badcity").isSome = true
      ∧ batchEntry (fun (s : Unit) (_ : String) => (Except.error (some "boom"), s)) () "Badcity"
          = .err { error := "Failed to geocode " ++ "Badcity"
                   details := some (batchExnMessage (some "boom")) } :=
  ⟨(batch_catches_exceptions_and_covers_every_name
      (fun (s : Unit) (_ : String) => (Except.error (some "boom"), s))
      (fun (s : Unit) (_ : String) => (Except.error (some "boom"), s))
      true ["Badcity"] ()).1 "Badcity" (by simp),
   (batch_catches_exceptions_and_covers_every_name
      (fun (s : Unit) (_ : String) => (Except.error (some "boom"), s))
      (fun (s : Unit) (_ : String) => (Except.error (some "boom"), s))
      true ["Badcity"] ()).2.1 () "Badcity" (some "boom") rfl⟩

/-- C8: a name is a key of the batch result iff it occurs in the input
list — one entry per distinct requested name — and, the names being
processed strictly in input order, a later occurrence of a duplicated
name overwrites the earlier one: the stored outcome for a name whose last
occurrence is final is the one computed at that occurrence, acting on the
lookup state reached after processing all the earlier names. -/
theorem batch_keys_and_duplicate_overwrite {σ : Type}
    (rateLimited direct : σ → String → Except Exn GeocodeResponse × σ)
    (useRateLimiting : Bool) (cityNames : List String) (s0 : σ) (n : String) :
    ((recordGet
        (batchGeocodeUKCities rateLimited direct useRateLimiting cityNames s0).1 n).isSome
        = true ↔ n ∈ cityNames)
      ∧ recordGet
          (batchGeocodeUKCities rateLimited direct useRateLimiting (cityNames ++ [n]) s0).1 n
          = some (batchEntry (if useRateLimiting then rateLimited else direct)
              (batchAux (if useRateLimiting then rateLimited else direct) cityNames ([], s0)).2
              n) := by
  constructor
  · rw [batchGeocodeUKCities, recordGet_batchAux_isSome_iff]
    simp [recordGet]
  · rw [batchGeocodeUKCities, recordGet_batchAux_append_last]

/-- Witness for C8: a stateful lookup whose outcome differs between the
first and the second call; batching `["a", "a"]` stores the outcome of
the second (later) occurrence under the single key "a". -/
theorem batch_duplicate_overwrite_witness :
    ((recordGet
        (batchGeocodeUKCities
          (fun (s : Bool) (_ : String) =>
            (Except.ok (GeocodeResponse.err { error := if s then "second" else "first"
                                              details := none }), true))
          (fun (s : Bool) (_ : String) =>
            (Except.ok (GeocodeResponse.err { error := if s then "second" else "first"
                                              details := none }), true))
          true (["a"] ++ ["a"]) false).1 "a").isSome = true)
      ∧ recordGet
          (batchGeocodeUKCities
            (fun (s : Bool) (_ : String) =>
              (Except.ok (GeocodeResponse.err { error := if s then "second" else "first"
                                                details := none }), true))
            (fun (s : Bool) (_ : String) =>
              (Except.ok (GeocodeResponse.err { error := if s then "second" else "first"
                                                details := none }), true))
            true (["a"] ++ ["a"]) false).1 "a"
          = some (.err { error := "second", details := none }) := by
  constructor
  · exact (batch_keys_and_duplicate_overwrite
      (fun (s : Bool) (_ : String) =>
        (Except.ok (GeocodeResponse.err { error := if s then "second" else "first"
                                          details := none }), true))
      (fun (s : Bool) (_ : String) =>
        (Except.ok (GeocodeResponse.err { error := if s then "second" else "first"
                                          details := none }), true))
      true (["a"] ++ ["a"]) false "a").1.mpr (by simp)
  · rw [(batch_keys_and_duplicate_overwrite
      (fun (s : Bool) (_ : String) =>
        (Except.ok (GeocodeResponse.err { error := if s then "second" else "first"
                                          details := none }), true))
      (fun (s : Bool) (_ : String) =>
        (Except.ok (GeocodeResponse.err { error := if s then "second" else "first"
                                          details := none }), true))
      true ["a"] false "a").2]
    rfl

end GeoCoding
